import Mathlib

/-!
Shallow embedding of the verification-code and notification-dispatch
subsystems of the candi-tracker API (`VerificationService` in the unnamed
verification service file and `NotificationService` in
`src/services/notificationService.ts`), together with proofs of the
spec's claims about them.

Modelling conventions:
* Timestamps are `Nat` milliseconds since the epoch (JS `Date.getTime()`),
  with a single `now` per operation standing for the several `new Date()`
  calls inside one method body.
* The Prisma store is a `Store` record of row lists in insertion order;
  `findFirst` without `orderBy` scans in list order, `findFirst` with
  `orderBy sentAt desc` picks a row of maximal `sentAt`.
* The distinct French user-facing message strings are represented by the
  `Msg` inductive, one constructor per literal.
* External effects (the crypto RNG draw, the email/SMS transport outcome)
  are explicit parameters.
-/

namespace CandiTracker

/-- Prisma enum `VerificationCodeType`. -/
inductive VerificationCodeType where
  | EMAIL_VERIFICATION
  | PASSWORD_RESET
  | TWO_FACTOR_AUTH
  | PHONE_VERIFICATION
  | ACCOUNT_DELETION
  | SENSITIVE_ACTION
  deriving DecidableEq, Repr

/-- Prisma enum `VerificationMethod`. -/
inductive VerificationMethod where
  | EMAIL
  | SMS
  deriving DecidableEq, Repr

/-- Row of the `verification_codes` table (fields the service reads or
writes; `metadata`/`updatedAt` omitted as no claim mentions them). -/
structure VerificationCode where
  id : Nat
  userId : String
  code : String
  type : VerificationCodeType
  method : VerificationMethod
  target : String
  expiresAt : Nat
  usedAt : Option Nat
  attempts : Nat
  maxAttempts : Nat
  isUsed : Bool
  createdAt : Nat
  deriving DecidableEq, Repr

/-- Row of the `verification_attempts` table. -/
structure VerificationAttempt where
  userId : String
  type : VerificationCodeType
  method : VerificationMethod
  target : String
  sentAt : Nat
  nextAllowedAt : Nat
  deriving DecidableEq, Repr

/-- The slice of the relational store the verification service touches.
`nextCodeId` supplies fresh primary keys for created code rows. -/
structure Store where
  codes : List VerificationCode
  attempts : List VerificationAttempt
  nextCodeId : Nat
  deriving DecidableEq, Repr

/-- The distinct user-facing message literals of `VerificationService`,
one constructor per French string in the source. -/
inductive Msg where
  | codeInvalidOrExpired
  | tooManyAttempts
  | codeVerified
  | waitBeforeResend (minutes : Nat)
  | delayNotElapsed
  | sendError
  | creationError
  | codeSentBy (method : VerificationMethod)
  deriving DecidableEq, Repr

/-- Interface `VerificationResult` (the `remainingAttempts` field is
declared in the source but never set, so it is omitted). -/
structure VerificationResult where
  success : Bool
  message : Msg
  nextAllowedAt : Option Nat
  deriving DecidableEq, Repr

/-- Argument record `VerificationCodeData` (metadata omitted). -/
structure VerificationCodeData where
  userId : String
  type : VerificationCodeType
  method : VerificationMethod
  target : String
  deriving DecidableEq, Repr

/-- `RESEND_DELAYS = [1, 2, 5, 10, 15, 30, 60]` minutes. -/
def RESEND_DELAYS : List Nat := [1, 2, 5, 10, 15, 30, 60]

/-- `EXPIRATION_TIMES` per code type, in minutes. -/
def EXPIRATION_TIMES : VerificationCodeType → Nat
  | .EMAIL_VERIFICATION => 60 * 24
  | .PASSWORD_RESET => 15
  | .TWO_FACTOR_AUTH => 5
  | .PHONE_VERIFICATION => 10
  | .ACCOUNT_DELETION => 30
  | .SENSITIVE_ACTION => 10

/-- Node's `crypto.randomInt(lo, hi)`: a uniform draw in `[lo, hi)` —
the upper bound is exclusive. The draw is made explicit as `r`. -/
def randomInt (lo hi : Nat) (r : Nat) : Nat := lo + r % (hi - lo)

/-- `generateCode`: `crypto.randomInt(100000, 999999)` (the source then
renders it with `toString`). -/
def generateCode (r : Nat) : Nat := randomInt 100000 999999 r

/-- `calculateNextDelay`: index `RESEND_DELAYS` at
`Math.min(attemptCount, RESEND_DELAYS.length - 1)`. -/
def calculateNextDelay (attemptCount : Nat) : Nat :=
  RESEND_DELAYS.getD (min attemptCount (RESEND_DELAYS.length - 1)) 0

/-- Does an attempt row match the `(userId, type, method, target)` filter
of `canSendCode` / the 24-hour count? -/
def attemptMatches (d : VerificationCodeData) (a : VerificationAttempt) : Bool :=
  a.userId = d.userId ∧ a.type = d.type ∧ a.method = d.method ∧ a.target = d.target

/-- `findFirst` with `orderBy sentAt desc`: a matching attempt row of
maximal `sentAt` (the first such row in store order). -/
def latestAttempt (s : Store) (d : VerificationCodeData) : Option VerificationAttempt :=
  (s.attempts.filter (attemptMatches d)).foldl
    (fun acc a =>
      match acc with
      | none => some a
      | some b => if b.sentAt < a.sentAt then some a else some b)
    none

/-- Result record of `canSendCode`. -/
structure CanSendResult where
  canSend : Bool
  nextAllowedAt : Option Nat
  message : Option Msg
  deriving DecidableEq, Repr

/-- `canSendCode`: allowed iff there is no prior matching attempt or
`now ≥` the latest one's `nextAllowedAt`; otherwise denied, carrying that
`nextAllowedAt` and a wait message with the remaining whole minutes. -/
def canSendCode (s : Store) (d : VerificationCodeData) (now : Nat) : CanSendResult :=
  match latestAttempt s d with
  | none => ⟨true, none, none⟩
  | some lastAttempt =>
    if lastAttempt.nextAllowedAt ≤ now then
      ⟨true, none, none⟩
    else
      ⟨false, some lastAttempt.nextAllowedAt,
        some (.waitBeforeResend ((lastAttempt.nextAllowedAt - now + 59999) / 60000))⟩

/-- The 24-hour prior-attempt count of `createAndSendCode`:
rows matching `(userId, type, method, target)` with
`sentAt ≥ now - 24h` (Nat subtraction truncates at 0, matching the JS
comparison against a possibly negative bound for small clocks). -/
def countRecentAttempts (s : Store) (d : VerificationCodeData) (now : Nat) : Nat :=
  (s.attempts.filter
    (fun a => attemptMatches d a ∧ now - 24 * 60 * 60 * 1000 ≤ a.sentAt)).length

/-- The `updateMany` invalidation step: mark `isUsed` on every code row of
this `(userId, type)` that is unused and unexpired. -/
def invalidateOldCodes (codes : List VerificationCode) (d : VerificationCodeData)
    (now : Nat) : List VerificationCode :=
  codes.map (fun c =>
    if c.userId = d.userId ∧ c.type = d.type ∧ c.isUsed = false ∧ now < c.expiresAt then
      { c with isUsed := true }
    else c)

/-- The fresh `verification_codes` row persisted by `createAndSendCode`
(schema defaults: `attempts 0`, `maxAttempts 5`, `isUsed false`). -/
def newCodeRow (s : Store) (d : VerificationCodeData) (now r : Nat) : VerificationCode :=
  { id := s.nextCodeId
    userId := d.userId
    code := toString (generateCode r)
    type := d.type
    method := d.method
    target := d.target
    expiresAt := now + EXPIRATION_TIMES d.type * 60 * 1000
    usedAt := none
    attempts := 0
    maxAttempts := 5
    isUsed := false
    createdAt := now }

/-- The fresh `verification_attempts` row persisted by `createAndSendCode`. -/
def newAttemptRow (s : Store) (d : VerificationCodeData) (now : Nat) : VerificationAttempt :=
  { userId := d.userId
    type := d.type
    method := d.method
    target := d.target
    sentAt := now
    nextAllowedAt := now + calculateNextDelay (countRecentAttempts s d now) * 60 * 1000 }

/-- `createAndSendCode`. `r` is the RNG draw, `sendOk` the outcome of the
`sendCode` transport step (`false` both when the transport returns false
and when it throws, since `sendCode` catches and returns false). -/
def createAndSendCode (s : Store) (d : VerificationCodeData) (now r : Nat)
    (sendOk : Bool) : VerificationResult × Store :=
  let canSend := canSendCode s d now
  if canSend.canSend = false then
    (⟨false, canSend.message.getD .delayNotElapsed, canSend.nextAllowedAt⟩, s)
  else
    let nextAllowedAt := now + calculateNextDelay (countRecentAttempts s d now) * 60 * 1000
    let s' : Store :=
      { codes := invalidateOldCodes s.codes d now ++ [newCodeRow s d now r]
        attempts := s.attempts ++ [newAttemptRow s d now]
        nextCodeId := s.nextCodeId + 1 }
    if sendOk = false then
      (⟨false, .sendError, none⟩, s')
    else
      (⟨true, .codeSentBy d.method, some nextAllowedAt⟩, s')

/-- The `findFirst` filter of `verifyCode`:
`(userId, code, type, isUsed: false, expiresAt > now)`. -/
def validCodeMatch (userId code : String) (ty : VerificationCodeType) (now : Nat)
    (c : VerificationCode) : Bool :=
  c.userId = userId ∧ c.code = code ∧ c.type = ty ∧ c.isUsed = false ∧ now < c.expiresAt

/-- `findFirst` of `verifyCode` (no `orderBy`: first matching row in store
order). -/
def findValidCode (s : Store) (userId code : String) (ty : VerificationCodeType)
    (now : Nat) : Option VerificationCode :=
  s.codes.find? (validCodeMatch userId code ty now)

/-- `verifyCode`: the row is looked up by the submitted code value; a
found row with exhausted attempts is marked used and refused; otherwise
the row is marked used with `attempts` incremented and `usedAt = now`. -/
def verifyCode (s : Store) (userId code : String) (ty : VerificationCodeType)
    (now : Nat) : VerificationResult × Store :=
  match findValidCode s userId code ty now with
  | none => (⟨false, .codeInvalidOrExpired, none⟩, s)
  | some vc =>
    if vc.maxAttempts ≤ vc.attempts then
      (⟨false, .tooManyAttempts, none⟩,
        { s with codes := s.codes.map (fun c =>
            if c.id = vc.id then { c with isUsed := true } else c) })
    else
      (⟨true, .codeVerified, none⟩,
        { s with codes := s.codes.map (fun c =>
            if c.id = vc.id then
              { c with attempts := c.attempts + 1, isUsed := true, usedAt := some now }
            else c) })

/-! ### Notification dispatcher (`NotificationService`) -/

/-- Prisma enum `NotificationType`. -/
inductive NotificationType where
  | INTERVIEW_REMINDER
  | APPLICATION_FOLLOW_UP
  | DEADLINE_ALERT
  | STATUS_UPDATE
  | WEEKLY_REPORT
  | SYSTEM_NOTIFICATION
  | ACHIEVEMENT
  deriving DecidableEq, Repr

/-- Prisma enum `NotificationPriority`. -/
inductive NotificationPriority where
  | LOW
  | NORMAL
  | HIGH
  | URGENT
  deriving DecidableEq, Repr

/-- Row of the `notification_settings` table (the three reminder-timing
integers play no part in dispatch and are omitted). -/
structure NotificationSetting where
  emailEnabled : Bool
  smsEnabled : Bool
  pushEnabled : Bool
  interviewReminders : Bool
  applicationFollowUps : Bool
  weeklyReports : Bool
  deadlineAlerts : Bool
  statusUpdates : Bool
  phoneNumber : Option String
  deriving DecidableEq, Repr

/-- In-app `notifications` row created by `createInternalNotification`. -/
structure Notification where
  userId : String
  type : NotificationType
  title : String
  message : String
  priority : NotificationPriority
  actionUrl : Option String
  deriving DecidableEq, Repr

/-- The free-form `data` payload of `sendNotification`, reduced to the
presence tests `sendEmailForType` performs on it. -/
structure NotifData where
  hasInterview : Bool
  hasApplication : Bool
  hasStats : Bool
  deriving DecidableEq, Repr

/-- JS truthiness of a nullable string: non-null and non-empty. -/
def jsTruthyStr : Option String → Bool
  | none => false
  | some s => !s.isEmpty

/-- JS `a || b` on strings: `b` when `a` is falsy (empty). -/
def jsOrStr (a b : String) : String :=
  if a.isEmpty then b else a

/-- The optional external `smsTemplates` module: each field is the
optional template function the source invokes with `?.` on a payload
carrying the title and message. -/
structure SMSTemplates where
  interviewReminder : Option (String → String → String)
  applicationDeadline : Option (String → String → String)
  quickUpdate : Option (String → String → String)

/-- JS `f?.(title, message) || fallback`. -/
def jsCallOr (f : Option (String → String → String)) (title message fallback : String) :
    String :=
  match f with
  | none => fallback
  | some g => jsOrStr (g title message) fallback

/-- `isNotificationTypeEnabled`: absent settings enable every type;
otherwise the per-category flag gates, unmapped types default to enabled. -/
def isNotificationTypeEnabled (ty : NotificationType)
    (settings : Option NotificationSetting) : Bool :=
  match settings with
  | none => true
  | some s =>
    match ty with
    | .INTERVIEW_REMINDER => s.interviewReminders
    | .APPLICATION_FOLLOW_UP => s.applicationFollowUps
    | .WEEKLY_REPORT => s.weeklyReports
    | .DEADLINE_ALERT => s.deadlineAlerts
    | .STATUS_UPDATE => s.statusUpdates
    | _ => true

/-- `shouldSendEmail`: membership in `emailOnlyTypes ∪ alwaysEmailTypes`
(the settings argument of the source is unused). -/
def shouldSendEmail (ty : NotificationType) : Bool :=
  let emailOnlyTypes : List NotificationType := [.WEEKLY_REPORT, .APPLICATION_FOLLOW_UP]
  let alwaysEmailTypes : List NotificationType :=
    [.INTERVIEW_REMINDER, .STATUS_UPDATE, .SYSTEM_NOTIFICATION]
  emailOnlyTypes.contains ty || alwaysEmailTypes.contains ty

/-- `shouldSendSMS`: membership in `smsOnlyTypes`
(the settings argument of the source is unused). -/
def shouldSendSMS (ty : NotificationType) : Bool :=
  let smsOnlyTypes : List NotificationType := [.INTERVIEW_REMINDER, .DEADLINE_ALERT]
  smsOnlyTypes.contains ty

/-- `generateSMSFromTemplate`, with the external `smsTemplates` module an
explicit optional argument; every branch falls back to a non-empty
literal combined with the payload. -/
def generateSMSFromTemplate (templates : Option SMSTemplates) (ty : NotificationType)
    (title message : String) : Option String :=
  match templates with
  | none => some (title ++ ": " ++ message)
  | some t =>
    match ty with
    | .INTERVIEW_REMINDER =>
      some (jsCallOr t.interviewReminder title message ("Rappel: entretien " ++ title))
    | .DEADLINE_ALERT =>
      some (jsCallOr t.applicationDeadline title message ("Alerte: " ++ message))
    | _ =>
      some (jsCallOr t.quickUpdate title message (title ++ ": " ++ message))

/-- `sendEmailForType`: number of email-service invocations — the three
payload-specific branches send only when their payload key is present,
the remaining handled types send one generic email. -/
def sendEmailForType (ty : NotificationType) (d : NotifData) : Nat :=
  match ty with
  | .INTERVIEW_REMINDER => if d.hasInterview then 1 else 0
  | .APPLICATION_FOLLOW_UP => if d.hasApplication then 1 else 0
  | .WEEKLY_REPORT => if d.hasStats then 1 else 0
  | .STATUS_UPDATE => 1
  | .DEADLINE_ALERT => 1
  | .SYSTEM_NOTIFICATION => 1
  | .ACHIEVEMENT => 1

/-- Observable outcome of one `sendNotification` call: the in-app row
created (if any) and how many email / SMS sender calls were made. -/
structure DispatchResult where
  created : Option Notification
  emailCalls : Nat
  smsCalls : Nat
  deriving DecidableEq, Repr

/-- `sendNotification` for a found user, with the user's
`notificationSettings` include passed in. Mirrors the source guards:
category gate; in-app row when settings are absent or push is enabled;
email when `settings?.emailEnabled && shouldSendEmail`; SMS when
`settings?.smsEnabled && settings.phoneNumber && shouldSendSMS` and the
rendered SMS message is truthy. -/
def sendNotification (settings : Option NotificationSetting) (userId : String)
    (ty : NotificationType) (title message : String) (d : NotifData)
    (priority : NotificationPriority) (actionUrl : Option String)
    (templates : Option SMSTemplates) : DispatchResult :=
  if isNotificationTypeEnabled ty settings = false then
    ⟨none, 0, 0⟩
  else
    let created : Option Notification :=
      match settings with
      | none => some ⟨userId, ty, title, message, priority, actionUrl⟩
      | some s =>
        if s.pushEnabled then some ⟨userId, ty, title, message, priority, actionUrl⟩
        else none
    let emailCalls : Nat :=
      match settings with
      | none => 0
      | some s => if s.emailEnabled && shouldSendEmail ty then sendEmailForType ty d else 0
    let smsCalls : Nat :=
      match settings with
      | none => 0
      | some s =>
        if s.smsEnabled && jsTruthyStr s.phoneNumber && shouldSendSMS ty then
          if jsTruthyStr (generateSMSFromTemplate templates ty title message) then 1 else 0
        else 0
    ⟨created, emailCalls, smsCalls⟩

/-! ### Spec vocabulary and concrete scenarios used by the proofs -/

/-- The spec's notion of an *active* code: unused and unexpired at time `t`,
for a given `(userId, kind)`. -/
def isActive (userId : String) (ty : VerificationCodeType) (t : Nat)
    (c : VerificationCode) : Bool :=
  c.userId = userId ∧ c.type = ty ∧ c.isUsed = false ∧ t < c.expiresAt

/-- Number of active codes of a `(userId, kind)` in the store at time `t`. -/
def activeCount (s : Store) (userId : String) (ty : VerificationCodeType) (t : Nat) : Nat :=
  (s.codes.filter (isActive userId ty t)).length

/-- A still-valid two-factor code row: unused, unexpired at `now = 0`,
attempts 0 of 5, stored value "123456". -/
def c1Code : VerificationCode :=
  { id := 0, userId := "u", code := "123456", type := .TWO_FACTOR_AUTH,
    method := .EMAIL, target := "u", expiresAt := 300000, usedAt := none,
    attempts := 0, maxAttempts := 5, isUsed := false, createdAt := 0 }

/-- Store holding exactly the code row `c1Code`. -/
def c1Store : Store := ⟨[c1Code], [], 1⟩

/-- One incorrect-code `verifyCode` call ("000000" against stored "123456"),
keeping the resulting store. -/
def c1WrongStep (s : Store) : Store := (verifyCode s "u" "000000" .TWO_FACTOR_AUTH 0).2

/-- Notification settings with every toggle on and a phone number on file. -/
def c2AllOn : NotificationSetting :=
  { emailEnabled := true, smsEnabled := true, pushEnabled := true,
    interviewReminders := true, applicationFollowUps := true, weeklyReports := true,
    deadlineAlerts := true, statusUpdates := true, phoneNumber := some "+33612345678" }

/-- Same settings but with the deadline-alert category toggled off. -/
def c2DeadlineOff : NotificationSetting := { c2AllOn with deadlineAlerts := false }

/-- A payload carrying all three optional keys. -/
def c2Data : NotifData := ⟨true, true, true⟩

/-- Request data for the resend scenario: a two-factor email code. -/
def c4d : VerificationCodeData := ⟨"u", .TWO_FACTOR_AUTH, .EMAIL, "u"⟩

/-- Empty store at the start of the resend scenario. -/
def c4s0 : Store := ⟨[], [], 0⟩

/-- First send at t = 0. -/
def c4r1 : VerificationResult × Store := createAndSendCode c4s0 c4d 0 0 true

/-- Second send at t = 1 min, as soon as allowed. -/
def c4r2 : VerificationResult × Store := createAndSendCode c4r1.2 c4d 60000 1 true

/-- Third send at t = 3 min, as soon as allowed. -/
def c4r3 : VerificationResult × Store := createAndSendCode c4r2.2 c4d 180000 2 true

/-- One operation of the verification service, carrying its wall-clock
time and the external effects (RNG draw, transport outcome). -/
inductive Op where
  | send (d : VerificationCodeData) (now r : Nat) (sendOk : Bool)
  | verify (userId code : String) (ty : VerificationCodeType) (now : Nat)

/-- The wall-clock time at which an operation runs. -/
def opTime : Op → Nat
  | .send _ now _ _ => now
  | .verify _ _ _ now => now

/-- Apply one operation to the store. -/
def applyOp (s : Store) : Op → Store
  | .send d now r sendOk => (createAndSendCode s d now r sendOk).2
  | .verify userId code ty now => (verifyCode s userId code ty now).2

/-- Apply a sequence of operations in order. -/
def applyOps (s : Store) (ops : List Op) : Store := ops.foldl applyOp s

/-- The operations run at nondecreasing wall-clock times, starting no
earlier than `T`. -/
def timesOrdered : Nat → List Op → Prop
  | _, [] => True
  | T, op :: rest => T ≤ opTime op ∧ timesOrdered (opTime op) rest

/-- The time of the last operation (`T` if there is none). -/
def lastTime (T : Nat) : List Op → Nat
  | [] => T
  | op :: rest => lastTime (opTime op) rest

/-- A second code kind for the same user, for the cross-key scenario. -/
def c5dB : VerificationCodeData := ⟨"u", .PASSWORD_RESET, .EMAIL, "u"⟩

/-- Two sends for the same user under different kinds, a minute apart. -/
def c5ops : List Op := [.send c4d 0 0 true, .send c5dB 60000 1 true]

end CandiTracker

namespace CandiTracker

/-! ### Helper lemmas -/

theorem append_isEmpty_false_right (a b : String) (h : b.isEmpty = false) :
    (a ++ b).isEmpty = false := by
  rw [Bool.eq_false_iff] at h ⊢
  intro hab
  apply h
  rw [String.isEmpty_iff] at hab ⊢
  have hd := congrArg String.data hab
  rw [String.data_append] at hd
  have hb : b.data = [] := (List.append_eq_nil.mp (by simpa using hd)).2
  exact String.ext (by simpa using hb)

theorem append_isEmpty_false_left (a b : String) (h : a.isEmpty = false) :
    (a ++ b).isEmpty = false := by
  rw [Bool.eq_false_iff] at h ⊢
  intro hab
  apply h
  rw [String.isEmpty_iff] at hab ⊢
  have hd := congrArg String.data hab
  rw [String.data_append] at hd
  have ha : a.data = [] := (List.append_eq_nil.mp (by simpa using hd)).1
  exact String.ext (by simpa using ha)

theorem jsOrStr_isEmpty_false (a b : String) (h : b.isEmpty = false) :
    (jsOrStr a b).isEmpty = false := by
  rw [jsOrStr]
  split
  · exact h
  · next hne => exact Bool.eq_false_iff.mpr hne

theorem jsCallOr_isEmpty_false (f : Option (String → String → String))
    (title message fallback : String) (h : fallback.isEmpty = false) :
    (jsCallOr f title message fallback).isEmpty = false := by
  cases f with
  | none => simpa [jsCallOr] using h
  | some g => simpa [jsCallOr] using jsOrStr_isEmpty_false (g title message) fallback h

/-- Every branch of `generateSMSFromTemplate` yields a JS-truthy string:
each either appends the payload to a non-empty literal or falls back to
one via `||`. -/
theorem generateSMS_truthy (templates : Option SMSTemplates) (ty : NotificationType)
    (title message : String) :
    jsTruthyStr (generateSMSFromTemplate templates ty title message) = true := by
  cases templates with
  | none =>
    simp only [generateSMSFromTemplate, jsTruthyStr, Bool.not_eq_eq_eq_not, Bool.not_true]
    exact append_isEmpty_false_left (title ++ ": ") message
      (append_isEmpty_false_right title ": " (by decide))
  | some t =>
    cases ty <;>
      simp only [generateSMSFromTemplate, jsTruthyStr, Bool.not_eq_eq_eq_not, Bool.not_true] <;>
      apply jsCallOr_isEmpty_false
    case some.INTERVIEW_REMINDER.h =>
      exact append_isEmpty_false_left _ title (by decide)
    case some.DEADLINE_ALERT.h =>
      exact append_isEmpty_false_left _ message (by decide)
    all_goals
      exact append_isEmpty_false_left (title ++ ": ") message
        (append_isEmpty_false_right title ": " (by decide))

/-! ### Claim theorems -/

/-- C1. The spec claims five wrong `verifyCode` guesses on a still-valid
code render it permanently unverifiable. On the code this fails: the
lookup filters by the *submitted* code value, so a wrong guess matches no
row, leaves the store unchanged, and never increments `attempts`; after
five wrong guesses the correct value still verifies successfully. This
theorem evaluates the embedded `verifyCode` at that failing input. -/
theorem c1_wrong_guesses_never_exhaust_code :
    (verifyCode c1Store "u" "000000" .TWO_FACTOR_AUTH 0).1.success = false ∧
    c1WrongStep (c1WrongStep (c1WrongStep (c1WrongStep (c1WrongStep c1Store)))) = c1Store ∧
    (verifyCode (c1WrongStep (c1WrongStep (c1WrongStep (c1WrongStep (c1WrongStep c1Store)))))
        "u" "123456" .TWO_FACTOR_AUTH 0).1.success = true := by
  decide

/-- C3 counterexample. The claim says 999999 is a possible output of the
code generator, but `crypto.randomInt(100000, 999999)` has an exclusive
upper bound: no RNG draw produces 999999. -/
theorem c3_999999_never_generated : ¬ ∃ r, generateCode r = 999999 := by
  rintro ⟨r, h⟩
  simp only [generateCode, randomInt] at h
  omega

/-- C3 amended. Every generated code is a 6-digit number in the range
100000–999998, and every value of that range is a possible output. -/
theorem c3_code_range :
    (∀ r, 100000 ≤ generateCode r ∧ generateCode r ≤ 999998) ∧
    (∀ v, 100000 ≤ v → v ≤ 999998 → ∃ r, generateCode r = v) := by
  constructor
  · intro r
    simp only [generateCode, randomInt]
    omega
  · intro v h1 h2
    refine ⟨v - 100000, ?_⟩
    simp only [generateCode, randomInt]
    omega

/-- C3 witness. -/
theorem c3_code_range_witness :
    (100000 ≤ generateCode 7 ∧ generateCode 7 ≤ 999998) ∧ ∃ r, generateCode r = 555555 :=
  ⟨c3_code_range.1 7, c3_code_range.2 555555 (by decide) (by decide)⟩

/-- C9. When no code row matches `(userId, code, kind, unused, unexpired)`,
`verifyCode` returns the generic invalid-or-expired failure and leaves the
store unchanged — in particular no attempts counter moves. -/
theorem c9_no_match_no_mutation (s : Store) (userId code : String)
    (ty : VerificationCodeType) (now : Nat)
    (h : ∀ c ∈ s.codes, validCodeMatch userId code ty now c = false) :
    verifyCode s userId code ty now = (⟨false, .codeInvalidOrExpired, none⟩, s) := by
  have hf : findValidCode s userId code ty now = none := by
    rw [findValidCode, List.find?_eq_none]
    intro c hc
    simp [h c hc]
  simp [verifyCode, hf]

/-- C9 witness: a wrong guess against `c1Store` matches nothing and leaves
the store intact. -/
theorem c9_no_match_no_mutation_witness :
    verifyCode c1Store "u" "999999" .TWO_FACTOR_AUTH 0 =
      (⟨false, .codeInvalidOrExpired, none⟩, c1Store) :=
  c9_no_match_no_mutation c1Store "u" "999999" .TWO_FACTOR_AUTH 0 (by decide)

/-- C10. Dispatching any notification type to a user without a
`NotificationSetting` row creates the in-app record and calls neither the
email sender nor the SMS sender. -/
theorem c10_absent_settings_in_app_only (userId : String) (ty : NotificationType)
    (title message : String) (d : NotifData) (priority : NotificationPriority)
    (actionUrl : Option String) (templates : Option SMSTemplates) :
    sendNotification none userId ty title message d priority actionUrl templates =
      ⟨some ⟨userId, ty, title, message, priority, actionUrl⟩, 0, 0⟩ := by
  simp [sendNotification, isNotificationTypeEnabled]

/-- C2 counterexample. With every toggle enabled (email included) a
`DEADLINE_ALERT` dispatch makes zero email-sender calls — the claim's "one
email when emailEnabled is true" fails because `shouldSendEmail` lists
`DEADLINE_ALERT` in neither email set. And with the deadline-alert
category toggled off, SMS enabled and a phone on file, zero SMS go out —
the claim's unconditional "exactly one SMS" fails at that setting. -/
theorem c2_deadline_alert_counterexample :
    c2AllOn.emailEnabled = true ∧
    (sendNotification (some c2AllOn) "u" .DEADLINE_ALERT "t" "m" c2Data .HIGH none
        none).emailCalls = 0 ∧
    c2DeadlineOff.smsEnabled = true ∧ jsTruthyStr c2DeadlineOff.phoneNumber = true ∧
    (sendNotification (some c2DeadlineOff) "u" .DEADLINE_ALERT "t" "m" c2Data .HIGH none
        none).smsCalls = 0 := by
  decide

/-- C2 amended. A `WEEKLY_REPORT` dispatch never calls the SMS sender under
any settings; a `DEADLINE_ALERT` dispatch with the deadline-alert category
enabled, SMS enabled and a phone number on file makes exactly one SMS call,
makes **no** email call regardless of `emailEnabled`, and creates the
in-app row iff push is enabled. -/
theorem c2_channel_routing :
    (∀ (settings : Option NotificationSetting) (userId title message : String)
        (d : NotifData) (priority : NotificationPriority) (actionUrl : Option String)
        (templates : Option SMSTemplates),
      (sendNotification settings userId .WEEKLY_REPORT title message d priority actionUrl
          templates).smsCalls = 0) ∧
    (∀ (st : NotificationSetting) (userId title message : String) (d : NotifData)
        (priority : NotificationPriority) (actionUrl : Option String)
        (templates : Option SMSTemplates),
      st.smsEnabled = true → jsTruthyStr st.phoneNumber = true → st.deadlineAlerts = true →
      (sendNotification (some st) userId .DEADLINE_ALERT title message d priority actionUrl
          templates).smsCalls = 1 ∧
      (sendNotification (some st) userId .DEADLINE_ALERT title message d priority actionUrl
          templates).emailCalls = 0 ∧
      (sendNotification (some st) userId .DEADLINE_ALERT title message d priority actionUrl
          templates).created.isSome = st.pushEnabled) := by
  have hsmsW : shouldSendSMS .WEEKLY_REPORT = false := by decide
  have hsmsD : shouldSendSMS .DEADLINE_ALERT = true := by decide
  have hemD : shouldSendEmail .DEADLINE_ALERT = false := by decide
  constructor
  · intro settings userId title message d priority actionUrl templates
    cases settings with
    | none => simp [sendNotification, isNotificationTypeEnabled]
    | some st =>
      cases hw : st.weeklyReports with
      | false => simp [sendNotification, isNotificationTypeEnabled, hw]
      | true => simp [sendNotification, isNotificationTypeEnabled, hw, hsmsW]
  · intro st userId title message d priority actionUrl templates hsms hphone hcat
    refine ⟨?_, ?_, ?_⟩ <;>
      simp [sendNotification, isNotificationTypeEnabled, hcat, hsms, hphone, hsmsD, hemD,
        generateSMS_truthy]
    cases hp : st.pushEnabled <;> simp [hp]

/-- C2 witness. -/
theorem c2_channel_routing_witness :
    (sendNotification (some c2AllOn) "u" .DEADLINE_ALERT "t" "m" c2Data .HIGH none
        none).smsCalls = 1 ∧
    (sendNotification (some c2AllOn) "u" .DEADLINE_ALERT "t" "m" c2Data .HIGH none
        none).emailCalls = 0 ∧
    (sendNotification (some c2AllOn) "u" .DEADLINE_ALERT "t" "m" c2Data .HIGH none
        none).created.isSome = c2AllOn.pushEnabled :=
  c2_channel_routing.2 c2AllOn "u" "t" "m" c2Data .HIGH none none
    (by decide) (by decide) (by decide)

/-- C7. When `canSendCode` denies a request (now is before the latest
matching attempt's `nextAllowedAt`), `createAndSendCode` fails carrying
that `nextAllowedAt` and leaves the store untouched. -/
theorem c7_rate_limited_no_mutation (s : Store) (d : VerificationCodeData)
    (now r : Nat) (sendOk : Bool)
    (h : (canSendCode s d now).canSend = false) :
    (createAndSendCode s d now r sendOk).2 = s ∧
    (createAndSendCode s d now r sendOk).1.success = false ∧
    ∃ la, latestAttempt s d = some la ∧ now < la.nextAllowedAt ∧
      (createAndSendCode s d now r sendOk).1.nextAllowedAt = some la.nextAllowedAt := by
  obtain ⟨la, hla, hlt⟩ :
      ∃ la, latestAttempt s d = some la ∧ now < la.nextAllowedAt := by
    unfold canSendCode at h
    cases hla : latestAttempt s d with
    | none => rw [hla] at h; simp at h
    | some la =>
      rw [hla] at h
      refine ⟨la, rfl, ?_⟩
      by_contra hge
      have hle : la.nextAllowedAt ≤ now := by omega
      simp [hle] at h
  have hnext : (canSendCode s d now).nextAllowedAt = some la.nextAllowedAt := by
    unfold canSendCode
    rw [hla]
    simp [Nat.not_le.mpr hlt]
  refine ⟨?_, ?_, la, hla, hlt, ?_⟩ <;> simp [createAndSendCode, h, hnext]

/-- C7 witness: one attempt row whose `nextAllowedAt` (60 s) lies ahead of
`now` (30 s). -/
theorem c7_rate_limited_no_mutation_witness :
    (createAndSendCode ⟨[], [⟨"u", .TWO_FACTOR_AUTH, .EMAIL, "u", 0, 60000⟩], 0⟩
        c4d 30000 0 true).2 =
      (⟨[], [⟨"u", .TWO_FACTOR_AUTH, .EMAIL, "u", 0, 60000⟩], 0⟩ : Store) ∧
    (createAndSendCode ⟨[], [⟨"u", .TWO_FACTOR_AUTH, .EMAIL, "u", 0, 60000⟩], 0⟩
        c4d 30000 0 true).1.success = false ∧
    ∃ la, latestAttempt ⟨[], [⟨"u", .TWO_FACTOR_AUTH, .EMAIL, "u", 0, 60000⟩], 0⟩ c4d =
        some la ∧ 30000 < la.nextAllowedAt ∧
      (createAndSendCode ⟨[], [⟨"u", .TWO_FACTOR_AUTH, .EMAIL, "u", 0, 60000⟩], 0⟩
          c4d 30000 0 true).1.nextAllowedAt = some la.nextAllowedAt :=
  c7_rate_limited_no_mutation _ c4d 30000 0 true (by decide)

/-- C8. When the outbound send step fails, `createAndSendCode` reports
failure yet the new code row and attempt row persisted beforehand remain
in the store (no rollback). -/
theorem c8_send_failure_no_rollback (s : Store) (d : VerificationCodeData) (now r : Nat)
    (h : (canSendCode s d now).canSend = true) :
    createAndSendCode s d now r false =
      (⟨false, .sendError, none⟩,
        ⟨invalidateOldCodes s.codes d now ++ [newCodeRow s d now r],
          s.attempts ++ [newAttemptRow s d now], s.nextCodeId + 1⟩) := by
  simp [createAndSendCode, h]

/-- C8 witness: an empty store, send transport failing. -/
theorem c8_send_failure_no_rollback_witness :
    createAndSendCode c4s0 c4d 0 0 false =
      (⟨false, .sendError, none⟩,
        ⟨invalidateOldCodes c4s0.codes c4d 0 ++ [newCodeRow c4s0 c4d 0 0],
          c4s0.attempts ++ [newAttemptRow c4s0 c4d 0], c4s0.nextCodeId + 1⟩) :=
  c8_send_failure_no_rollback c4s0 c4d 0 0 (by decide)

/-- C4. A permitted `createAndSendCode` records an attempt row whose
`nextAllowedAt` is `now` plus the `[1,2,5,10,15,30,60]`-minute table
indexed at `min(prior 24h count, 6)`, returns that same timestamp on a
successful send, and three consecutive permitted sends from an empty
store observe cooldowns of 1, 2 and 5 minutes. -/
theorem c4_cooldown_table (s : Store) (d : VerificationCodeData) (now r : Nat)
    (sendOk : Bool) (h : (canSendCode s d now).canSend = true) :
    (createAndSendCode s d now r sendOk).2.attempts.getLast? =
      some ⟨d.userId, d.type, d.method, d.target, now,
        now + [1, 2, 5, 10, 15, 30, 60].getD (min (countRecentAttempts s d now) 6) 0
          * 60 * 1000⟩ ∧
    (sendOk = true →
      (createAndSendCode s d now r sendOk).1.nextAllowedAt =
        some (now + [1, 2, 5, 10, 15, 30, 60].getD (min (countRecentAttempts s d now) 6) 0
          * 60 * 1000)) ∧
    (c4r1.1.nextAllowedAt = some (0 + 1 * 60 * 1000) ∧
     c4r2.1.nextAllowedAt = some (60000 + 2 * 60 * 1000) ∧
     c4r3.1.nextAllowedAt = some (180000 + 5 * 60 * 1000)) := by
  refine ⟨?_, ?_, by decide⟩
  · cases sendOk <;>
      simp [createAndSendCode, h, newAttemptRow, calculateNextDelay, RESEND_DELAYS,
        List.getLast?_concat]
  · intro hok
    subst hok
    simp [createAndSendCode, h, calculateNextDelay, RESEND_DELAYS]

/-- C4 witness: the first send from an empty store. -/
theorem c4_cooldown_table_witness :
    (createAndSendCode c4s0 c4d 0 0 true).2.attempts.getLast? =
      some ⟨c4d.userId, c4d.type, c4d.method, c4d.target, 0,
        0 + [1, 2, 5, 10, 15, 30, 60].getD (min (countRecentAttempts c4s0 c4d 0) 6) 0
          * 60 * 1000⟩ ∧
    (createAndSendCode c4s0 c4d 0 0 true).1.nextAllowedAt =
      some (0 + [1, 2, 5, 10, 15, 30, 60].getD (min (countRecentAttempts c4s0 c4d 0) 6) 0
        * 60 * 1000) :=
  ⟨(c4_cooldown_table c4s0 c4d 0 0 true (by decide)).1,
   (c4_cooldown_table c4s0 c4d 0 0 true (by decide)).2.1 rfl⟩

/-- Filtering the image of a pointwise-weakening map never yields more
elements than filtering the original list. -/
theorem filter_map_length_le {α : Type} (f : α → α) (p : α → Bool)
    (hf : ∀ x, p (f x) = true → p x = true) :
    ∀ l : List α, ((l.map f).filter p).length ≤ (l.filter p).length := by
  intro l
  induction l with
  | nil => simp
  | cons x xs ih =>
    simp only [List.map_cons, List.filter_cons]
    cases hfx : p (f x) with
    | true =>
      rw [hf x hfx]
      simpa using ih
    | false =>
      cases hx : p x with
      | true =>
        simp only [hfx, hx, Bool.false_eq_true, if_false, if_true, List.length_cons]
        exact le_trans ih (Nat.le_succ _)
      | false =>
        simp only [hfx, hx, Bool.false_eq_true, if_false]
        exact ih

/-- A permitted `createAndSendCode` leaves at most one active code of the
request's `(userId, kind)` at any time from `now` on: the invalidation
pass marks every matching unused, unexpired row used, and only the new
row is appended. -/
theorem createAndSendCode_activeCount_le_one (s : Store) (d : VerificationCodeData)
    (now r : Nat) (sendOk : Bool) (t : Nat)
    (h : (canSendCode s d now).canSend = true) (ht : now ≤ t) :
    activeCount (createAndSendCode s d now r sendOk).2 d.userId d.type t ≤ 1 := by
  have hinv : (invalidateOldCodes s.codes d now).filter (isActive d.userId d.type t) = [] := by
    rw [List.filter_eq_nil_iff]
    intro a ha
    rw [invalidateOldCodes] at ha
    obtain ⟨c, hc, rfl⟩ := List.mem_map.mp ha
    by_cases hcond : c.userId = d.userId ∧ c.type = d.type ∧ c.isUsed = false ∧
        now < c.expiresAt
    · rw [if_pos hcond]
      simp [isActive]
    · rw [if_neg hcond]
      simp only [isActive, decide_eq_true_eq]
      rintro ⟨h1, h2, h3, h4⟩
      exact hcond ⟨h1, h2, h3, by omega⟩
  cases sendOk <;>
    simp [createAndSendCode, h, activeCount, List.filter_append, hinv] <;>
    exact le_trans (List.length_filter_le _ _) (by simp)

/-- `verifyCode` only ever marks rows used, so it never increases the
number of active codes of any `(user, kind)`. -/
theorem verifyCode_activeCount_mono (s : Store) (userId code : String)
    (ty : VerificationCodeType) (now : Nat) (u : String) (k : VerificationCodeType)
    (t : Nat) :
    activeCount (verifyCode s userId code ty now).2 u k t ≤ activeCount s u k t := by
  rcases hv : findValidCode s userId code ty now with _ | vc
  · have hs : (verifyCode s userId code ty now).2 = s := by simp [verifyCode, hv]
    rw [hs]
  · by_cases hm : vc.maxAttempts ≤ vc.attempts
    · have hs : (verifyCode s userId code ty now).2 =
          { s with codes := s.codes.map (fun c =>
              if c.id = vc.id then { c with isUsed := true } else c) } := by
        simp [verifyCode, hv, hm]
      rw [hs]
      simp only [activeCount]
      apply filter_map_length_le
      intro x hx
      by_cases hid : x.id = vc.id
      · rw [if_pos hid] at hx
        simp [isActive] at hx
      · rwa [if_neg hid] at hx
    · have hs : (verifyCode s userId code ty now).2 =
          { s with codes := s.codes.map (fun c =>
              if c.id = vc.id then
                { c with attempts := c.attempts + 1, isUsed := true, usedAt := some now }
              else c) } := by
        simp [verifyCode, hv, hm]
      rw [hs]
      simp only [activeCount]
      apply filter_map_length_le
      intro x hx
      by_cases hid : x.id = vc.id
      · rw [if_pos hid] at hx
        simp [isActive] at hx
      · rwa [if_neg hid] at hx

/-- A denied `createAndSendCode` returns the store unchanged. -/
theorem createAndSendCode_denied_store (s : Store) (d : VerificationCodeData)
    (now r : Nat) (sendOk : Bool) (h : (canSendCode s d now).canSend = false) :
    (createAndSendCode s d now r sendOk).2 = s := by
  simp [createAndSendCode, h]

/-- A `createAndSendCode` never increases the active count of any other
`(user, kind)` key: the invalidation pass only marks rows used and the
appended row carries the request's own key. -/
theorem createAndSendCode_activeCount_other_key (s : Store) (d : VerificationCodeData)
    (now r : Nat) (sendOk : Bool) (u : String) (k : VerificationCodeType) (t : Nat)
    (hk : ¬(u = d.userId ∧ k = d.type)) :
    activeCount (createAndSendCode s d now r sendOk).2 u k t ≤ activeCount s u k t := by
  cases hcs : (canSendCode s d now).canSend with
  | false => rw [createAndSendCode_denied_store s d now r sendOk hcs]
  | true =>
    have hnew : isActive u k t (newCodeRow s d now r) = false := by
      simp only [isActive, newCodeRow, decide_eq_false_iff_not]
      rintro ⟨h1, h2, -, -⟩
      exact hk ⟨h1.symm, h2.symm⟩
    cases sendOk <;>
      simp [createAndSendCode, hcs, activeCount, List.filter_append, hnew] <;>
      (rw [invalidateOldCodes]
       apply filter_map_length_le
       intro x hx
       by_cases hcond : x.userId = d.userId ∧ x.type = d.type ∧ x.isUsed = false ∧
           now < x.expiresAt
       · rw [if_pos hcond] at hx
         simp [isActive] at hx
       · rwa [if_neg hcond] at hx)

/-- One operation preserves the at-most-one-active invariant, re-anchored
at the operation's time. -/
theorem applyOp_preserves_active_invariant (s : Store) (T : Nat) (op : Op)
    (hInv : ∀ u k t, T ≤ t → activeCount s u k t ≤ 1) (hT : T ≤ opTime op) :
    ∀ u k t, opTime op ≤ t → activeCount (applyOp s op) u k t ≤ 1 := by
  intro u k t ht
  cases op with
  | verify userId code ty now =>
    simp only [opTime] at hT ht
    exact le_trans (verifyCode_activeCount_mono s userId code ty now u k t)
      (hInv u k t (by omega))
  | send d now r sendOk =>
    simp only [opTime] at hT ht
    by_cases hck : u = d.userId ∧ k = d.type
    · obtain ⟨hu, hkk⟩ := hck
      subst hu
      subst hkk
      cases hcs : (canSendCode s d now).canSend with
      | true => exact createAndSendCode_activeCount_le_one s d now r sendOk t hcs ht
      | false =>
        have hstore : applyOp s (Op.send d now r sendOk) = s :=
          createAndSendCode_denied_store s d now r sendOk hcs
        rw [hstore]
        exact hInv d.userId d.type t (by omega)
    · exact le_trans
        (createAndSendCode_activeCount_other_key s d now r sendOk u k t hck)
        (hInv u k t (by omega))

/-- Any time-ordered sequence of operations preserves the
at-most-one-active invariant. -/
theorem applyOps_preserves_active_invariant (ops : List Op) :
    ∀ (s : Store) (T : Nat),
    (∀ u k t, T ≤ t → activeCount s u k t ≤ 1) →
    timesOrdered T ops →
    ∀ u k t, lastTime T ops ≤ t → activeCount (applyOps s ops) u k t ≤ 1 := by
  induction ops with
  | nil =>
    intro s T hInv _ u k t ht
    exact hInv u k t ht
  | cons op rest ih =>
    intro s T hInv hord u k t ht
    obtain ⟨h1, h2⟩ := hord
    exact ih (applyOp s op) (opTime op)
      (applyOp_preserves_active_invariant s T op hInv h1) h2 u k t ht

/-- C5. At most one active (unused, unexpired) code per `(user, kind)`
after any sequence of operations: a permitted `createAndSendCode` marks
every previously active code of its own `(userId, kind)` used and leaves
at most one active code of that key from `now` on; a send never increases
the active count of any *other* key; `verifyCode` never increases any
active count; and consequently the at-most-one-active invariant is
preserved across every time-ordered operation sequence. -/
theorem c5_at_most_one_active :
    (∀ (s : Store) (d : VerificationCodeData) (now r : Nat) (sendOk : Bool) (t : Nat),
      (canSendCode s d now).canSend = true → now ≤ t →
      activeCount (createAndSendCode s d now r sendOk).2 d.userId d.type t ≤ 1) ∧
    (∀ (s : Store) (d : VerificationCodeData) (now r : Nat) (sendOk : Bool)
        (u : String) (k : VerificationCodeType) (t : Nat),
      ¬(u = d.userId ∧ k = d.type) →
      activeCount (createAndSendCode s d now r sendOk).2 u k t ≤ activeCount s u k t) ∧
    (∀ (s : Store) (userId code : String) (ty : VerificationCodeType) (now : Nat)
        (u : String) (k : VerificationCodeType) (t : Nat),
      activeCount (verifyCode s userId code ty now).2 u k t ≤ activeCount s u k t) ∧
    (∀ (ops : List Op) (s : Store) (T : Nat),
      (∀ u k t, T ≤ t → activeCount s u k t ≤ 1) →
      timesOrdered T ops →
      ∀ u k t, lastTime T ops ≤ t → activeCount (applyOps s ops) u k t ≤ 1) :=
  ⟨fun s d now r sendOk t h ht => createAndSendCode_activeCount_le_one s d now r sendOk t h ht,
   fun s d now r sendOk u k t hk =>
     createAndSendCode_activeCount_other_key s d now r sendOk u k t hk,
   fun s userId code ty now u k t => verifyCode_activeCount_mono s userId code ty now u k t,
   fun ops s T hInv hord => applyOps_preserves_active_invariant ops s T hInv hord⟩

/-- C5 witness: the first send from the empty store leaves at most one
active two-factor code; a password-reset send against `c1Store` does not
increase the two-factor active count; and after the two-kind send
sequence `c5ops` from the empty store the two-factor active count at the
last operation's time is at most one. -/
theorem c5_at_most_one_active_witness :
    activeCount (createAndSendCode c4s0 c4d 0 0 true).2 c4d.userId c4d.type 0 ≤ 1 ∧
    activeCount (createAndSendCode c1Store c5dB 0 0 true).2 "u" .TWO_FACTOR_AUTH 0 ≤
      activeCount c1Store "u" .TWO_FACTOR_AUTH 0 ∧
    activeCount (applyOps c4s0 c5ops) "u" .TWO_FACTOR_AUTH 60000 ≤ 1 :=
  ⟨c5_at_most_one_active.1 c4s0 c4d 0 0 true 0 (by decide) (by decide),
   c5_at_most_one_active.2.1 c1Store c5dB 0 0 true "u" .TWO_FACTOR_AUTH 0 (by decide),
   c5_at_most_one_active.2.2.2 c5ops c4s0 0
     (fun u k t ht => by simp [activeCount, c4s0])
     (by simp [timesOrdered, c5ops, opTime])
     "u" .TWO_FACTOR_AUTH 60000 (by simp [lastTime, c5ops, opTime])⟩

/-- C6. A code that is unexpired, unused and within its attempts budget —
and is the only row matching the lookup filter — verifies successfully
exactly once: the success marks it used, so any later `verifyCode` with
the same value fails. -/
theorem c6_single_use (s : Store) (userId code : String) (ty : VerificationCodeType)
    (now t' : Nat) (vc : VerificationCode)
    (hfind : findValidCode s userId code ty now = some vc)
    (hbudget : vc.attempts < vc.maxAttempts)
    (huniq : ∀ c ∈ s.codes, validCodeMatch userId code ty now c = true → c.id = vc.id)
    (hle : now ≤ t') :
    (verifyCode s userId code ty now).1.success = true ∧
    (verifyCode (verifyCode s userId code ty now).2 userId code ty t').1.success = false := by
  have h1 : verifyCode s userId code ty now =
      (⟨true, .codeVerified, none⟩,
        { s with codes := s.codes.map (fun c =>
            if c.id = vc.id then
              { c with attempts := c.attempts + 1, isUsed := true, usedAt := some now }
            else c) }) := by
    simp [verifyCode, hfind, Nat.not_le.mpr hbudget]
  have hnone : findValidCode
      { s with codes := s.codes.map (fun c =>
          if c.id = vc.id then
            { c with attempts := c.attempts + 1, isUsed := true, usedAt := some now }
          else c) } userId code ty t' = none := by
    rw [findValidCode, List.find?_eq_none]
    intro x hx
    obtain ⟨c, hc, rfl⟩ := List.mem_map.mp hx
    by_cases hid : c.id = vc.id
    · rw [if_pos hid]
      simp [validCodeMatch]
    · rw [if_neg hid]
      simp only [validCodeMatch, decide_eq_true_eq]
      rintro ⟨m1, m2, m3, m4, m5⟩
      refine hid (huniq c hc ?_)
      simp only [validCodeMatch, decide_eq_true_eq]
      exact ⟨m1, m2, m3, m4, by omega⟩
  refine ⟨by rw [h1], ?_⟩
  rw [h1]
  simp [verifyCode, hnone]

/-- C6 witness: the still-valid code of `c1Store` verifies once and the
repeat attempt fails. -/
theorem c6_single_use_witness :
    (verifyCode c1Store "u" "123456" .TWO_FACTOR_AUTH 0).1.success = true ∧
    (verifyCode (verifyCode c1Store "u" "123456" .TWO_FACTOR_AUTH 0).2 "u" "123456"
        .TWO_FACTOR_AUTH 0).1.success = false :=
  c6_single_use c1Store "u" "123456" .TWO_FACTOR_AUTH 0 0 c1Code (by decide) (by decide)
    (by decide) (by decide)

end CandiTracker
